import Mathlib

/-!
The client facade of the DSM runtime (`src/src/dsm.c`).

A shallow embedding of the public operations `dsm_init`, `dsm_get_gid`,
`dsm_barrier`, `dsm_post_sem`, `dsm_wait_sem` and `dsm_exit`.

* The four globals of `dsm.c` are fields of `State`.
* Every call that leaves the process (system calls and the helpers of
  `dsm_util`, `dsm_inet`, `dsm_signal`, `dsm_sync`, `dsm_msg`) appends one `Effect`
  to `State.trace`, in program order; what such a call returns is read from `Env`.
* A call of a public operation either returns (`Except.ok`) or stops the process
  (`Except.error`); the state reached is kept in both cases.
-/

namespace Dsm

/-! ## Symbolic constants -/

/-- The maximum number of connection attempts allowed (`dsm.c`, line 26). -/
def DSM_MAX_SOCK_POLL : Nat := 15

/-- The timeout (in microseconds) between connection attempts (`dsm.c`, line 29). -/
def DSM_SOCK_POLL_RATE : Nat := 250000

/-- Modelled from the spec: the constant `DSM_MSG_STR_SIZE` is declared in `dsm_msg.h`,
which is not among the sources. The spec gives the width of a string field of a frame:
"truncate semaphore names safely to 32 bytes", "strings are fixed-width null-padded". -/
def DSM_MSG_STR_SIZE : Nat := 32

/-- The null pointer. -/
def NULL : Nat := 0

/-- POSIX `PROT_READ`. -/
def PROT_READ : Nat := 1

/-- POSIX `PROT_WRITE`. -/
def PROT_WRITE : Nat := 2

/-! ## Data model -/

/-- Modelled from the spec: the enumeration of message kinds is declared in `dsm_msg.h`,
which is not among the sources. `dsm.c` names six of the kinds; the others are the
remaining kinds of section 4.1 of the spec. -/
inductive dsm_msg_t
  | DSM_MSG_ADD_PID
  | DSM_MSG_SET_GID
  | DSM_MSG_HIT_BAR
  | DSM_MSG_WAIT_SEM
  | DSM_MSG_POST_SEM
  | DSM_MSG_WRT_DATA
  | DSM_MSG_SYN_REQ
  | DSM_MSG_SYN_ACK
  | DSM_MSG_EXIT
  | DSM_MSG_STP_ALL
  | DSM_MSG_CNT_ALL
  deriving DecidableEq, Repr

open dsm_msg_t

/-- A protocol frame, with the members `dsm.c` reads and writes: `type`, `proc.pid`,
`proc.gid`, `sem.pid` and `sem.sem_name`. The members are kept apart (the layout of the
C union is declared in the absent `dsm_msg.h`). `sem_name` holds the characters of the
field up to its first NUL; a zero-initialised field is the empty list. -/
structure dsm_msg where
  type : dsm_msg_t
  proc_pid : Int
  proc_gid : Int
  sem_pid : Int
  sem_name : List Nat
  deriving DecidableEq, Repr

/-- The C initialiser `dsm_msg msg = {.type = type}`: every other member is zero. -/
def dsm_msg.init (type : dsm_msg_t) : dsm_msg :=
  { type := type, proc_pid := 0, proc_gid := 0, sem_pid := 0, sem_name := [] }

/-- The signals `dsm.c` names. -/
inductive signal
  | SIGSEGV
  | SIGILL
  | SIGTSTP
  deriving DecidableEq, Repr

open signal

/-- A signal handler: the two handlers of the sync runtime, or one of the application. -/
inductive sig_handler
  | dsm_sync_sigsegv
  | dsm_sync_sigill
  | app (id : Nat)
  deriving DecidableEq, Repr

/-- The disposition of a signal. -/
inductive disposition
  | SIG_DFL
  | handler (h : sig_handler)
  deriving DecidableEq, Repr

/-- The configuration `dsm_cfg`, with the fields `fork_arbiter` and `dsm_init2` use. -/
structure dsm_cfg where
  nproc : Nat
  sid_name : List Nat
  d_addr : List Nat
  d_port : List Nat
  map_size : Nat
  deriving DecidableEq, Repr

/-- One call that leaves the process, as recorded in the trace. -/
inductive Effect
  | dsm_fork
  | setsid
  | execlp (proc_buf sid_name d_addr d_port size_buf : List Nat)
  | waitpid (pid : Int)
  | usleep (usec : Nat)
  | dsm_getConnectedSocket
  | dsm_getSharedFile
  | dsm_getSharedFileSize (fd : Int)
  | dsm_mapSharedFile (fd : Int) (size : Int) (prot : Nat)
  | dsm_sendall (fd : Int) (msg : dsm_msg)
  | dsm_recvall (fd : Int)
  | dsm_sync_init
  | dsm_sigaction (sig : signal) (h : sig_handler)
  | dsm_sigdefault (sig : signal)
  | dsm_mprotect (addr : Nat) (size : Int) (prot : Nat)
  | kill (pid : Int) (sig : signal)
  | close (fd : Int)
  | munmap (addr : Nat) (size : Int)
  deriving DecidableEq, Repr

/-- The ways a call stops the process instead of returning. -/
inductive dsm_halt
  | state_violation
  | cond_violation
  | arbiter_unreachable
  | lost_connection
  | exec_failed
  | barrier_failed
  | unmap_failed
  | image_replaced
  | child_exit
  deriving DecidableEq, Repr

/-- The globals of `dsm.c`, the dispositions of the three signals, and the trace. -/
structure State where
  g_shared_map : Nat
  g_map_size : Int
  g_gid : Int
  g_sock_io : Int
  sigsegv : disposition
  sigill : disposition
  sigtstp : disposition
  trace : List Effect
  deriving DecidableEq, Repr

/-- The state of a process before any call: the static initialisers of `dsm.c`
(lines 39 to 49), the dispositions the process has, and an empty trace. -/
def initial_state (segv ill tstp : disposition) : State :=
  { g_shared_map := NULL, g_map_size := 0, g_gid := -1, g_sock_io := -1,
    sigsegv := segv, sigill := ill, sigtstp := tstp, trace := [] }

/-- What the outside world answers during one call of a public operation.
`dsm_fork k` and `dsm_getConnectedSocket k` answer the call number `k` (from 0) of that
helper within the operation; the other helpers are called at most once per operation. -/
structure Env where
  getpid : Int
  dsm_fork : Nat → Int
  execlp_returns : Bool
  dsm_getConnectedSocket : Nat → Int
  shared_fd : Int
  shared_first : Int
  dsm_getSharedFileSize : Int
  dsm_mapSharedFile : Nat
  dsm_recvall : Option dsm_msg
  kill : Int
  munmap : Int

/-! ## The monad of the embedding -/

/-- A computation of `dsm.c`: it reads the answers of the world, transforms the state,
and returns a value or stops the process. -/
def DSM (α : Type) : Type := Env → State → Except dsm_halt α × State

/-- Return a value. -/
def DSM.pure {α : Type} (a : α) : DSM α :=
  fun _ s => (Except.ok a, s)

/-- Sequence two computations; a stop ends the sequence. -/
def DSM.bind {α β : Type} (m : DSM α) (f : α → DSM β) : DSM β :=
  fun env s =>
    match m env s with
    | (Except.ok a, s1) => f a env s1
    | (Except.error e, s1) => (Except.error e, s1)

instance : Monad DSM where
  pure := DSM.pure
  bind := DSM.bind

/-- Append one effect to the trace. -/
def emit (e : Effect) : DSM Unit :=
  fun _ s => (Except.ok (), { s with trace := s.trace ++ [e] })

/-- Stop the process. -/
def halt {α : Type} (h : dsm_halt) : DSM α :=
  fun _ s => (Except.error h, s)

/-- Read the state. -/
def get_state : DSM State :=
  fun _ s => (Except.ok s, s)

/-- Read the answers of the world. -/
def get_env : DSM Env :=
  fun env s => (Except.ok env, s)

/-- Transform the state. -/
def modify_state (f : State → State) : DSM Unit :=
  fun _ s => (Except.ok (), f s)

/-! ## Library calls and helpers declared outside `dsm.c` -/

/-- The characters of a C string: what precedes the first NUL. -/
def c_str (mem : List Nat) : List Nat :=
  mem.takeWhile (fun c => c ≠ 0)

/-- The characters `snprintf(buf, size, "%s", s)` leaves in `buf` before the terminating
NUL: at most `size - 1` characters of `s`; with `size = 0` nothing is written and `buf`
(here the field content `old`) is kept. -/
def snprintf_s (old : List Nat) (size : Nat) (s : List Nat) : List Nat :=
  if size = 0 then old else (c_str s).take (size - 1)

/-- The characters `snprintf(buf, size, "%u", n)` (or `"%zu"`) leaves in `buf`. -/
def snprintf_u (size : Nat) (n : Nat) : List Nat :=
  if size = 0 then [] else ((Nat.toDigits 10 n).map Char.toNat).take (size - 1)

/-- The call `getpid()`. -/
def getpid : DSM Int := do
  let env ← get_env
  pure env.getpid

/-- Modelled from the spec: the macro `ASSERT_STATE` is defined in `dsm_util.h`, which is
not among the sources. A false condition is the error `ErrState` ("API misuse (double
init, use after exit)"); like every client error it stops the process. -/
def ASSERT_STATE (cond : Bool) : DSM Unit :=
  if cond then pure () else halt dsm_halt.state_violation

/-- Modelled from the spec: the macro `ASSERT_COND` is defined in `dsm_util.h`, which is
not among the sources. A false condition stops the process ("unexpected kind, pid/gid
mismatch" are fatal for a client). -/
def ASSERT_COND (cond : Bool) : DSM Unit :=
  if cond then pure () else halt dsm_halt.cond_violation

/-- The helper `dsm_fork` (call number `k` within the operation). -/
def dsm_fork (k : Nat) : DSM Int := do
  emit Effect.dsm_fork
  let env ← get_env
  pure (env.dsm_fork k)

/-- The helper `dsm_getConnectedSocket(DSM_LOOPBACK_ADDR, DSM_ARB_PORT)` (call number
`k` within the operation). -/
def dsm_getConnectedSocket (k : Nat) : DSM Int := do
  emit Effect.dsm_getConnectedSocket
  let env ← get_env
  pure (env.dsm_getConnectedSocket k)

/-- The helper `dsm_getSharedFile(DSM_SHM_FILE_NAME, &first)`: the descriptor, and the
value it leaves in `first`. -/
def dsm_getSharedFile : DSM (Int × Int) := do
  emit Effect.dsm_getSharedFile
  let env ← get_env
  pure (env.shared_fd, env.shared_first)

/-- The helper `dsm_getSharedFileSize(fd)`. -/
def dsm_getSharedFileSize (fd : Int) : DSM Int := do
  emit (Effect.dsm_getSharedFileSize fd)
  let env ← get_env
  pure env.dsm_getSharedFileSize

/-- The helper `dsm_mapSharedFile(fd, size, prot)`. -/
def dsm_mapSharedFile (fd : Int) (size : Int) (prot : Nat) : DSM Nat := do
  emit (Effect.dsm_mapSharedFile fd size prot)
  let env ← get_env
  pure env.dsm_mapSharedFile

/-- The helper `dsm_mprotect(addr, size, prot)`. -/
def dsm_mprotect (addr : Nat) (size : Int) (prot : Nat) : DSM Unit :=
  emit (Effect.dsm_mprotect addr size prot)

/-- The helper `dsm_sync_init()`. -/
def dsm_sync_init : DSM Unit :=
  emit Effect.dsm_sync_init

/-- Set the disposition of a signal. -/
def State.set_disposition (s : State) (sig : signal) (d : disposition) : State :=
  match sig with
  | SIGSEGV => { s with sigsegv := d }
  | SIGILL => { s with sigill := d }
  | SIGTSTP => { s with sigtstp := d }

/-- Modelled from the spec: the helper `dsm_sigaction(sig, handler)` is declared in
`dsm_signal.h`, which is not among the sources; it installs the handler for the signal
("Install fault handlers for memory-protection and illegal-instruction traps"). -/
def dsm_sigaction (sig : signal) (h : sig_handler) : DSM Unit := do
  emit (Effect.dsm_sigaction sig h)
  modify_state (fun s => s.set_disposition sig (disposition.handler h))

/-- Modelled from the spec: the helper `dsm_sigdefault(sig)` is declared in
`dsm_signal.h`, which is not among the sources; it restores the default disposition of the
signal ("Reinstall default signal handlers"). -/
def dsm_sigdefault (sig : signal) : DSM Unit := do
  emit (Effect.dsm_sigdefault sig)
  modify_state (fun s => s.set_disposition sig disposition.SIG_DFL)

/-! ## Message wrapper functions -/

/-- Sends a message to the target descriptor (`dsm_pack_msg`, then `dsm_sendall`). -/
def send_msg (fd : Int) (mp : dsm_msg) : DSM Unit :=
  emit (Effect.dsm_sendall fd mp)

/-- Receives a message (`dsm_recvall`, then `dsm_unpack_msg`); a non-zero result of
`dsm_recvall` stops the process ("Lost connection to host!"). -/
def recv_msg (fd : Int) : DSM dsm_msg := do
  emit (Effect.dsm_recvall fd)
  let env ← get_env
  match env.dsm_recvall with
  | some mp => pure mp
  | none => halt dsm_halt.lost_connection

/-! ## Message functions -/

/-- Sends `DSM_MSG_ADD_PID` to the arbiter. -/
def send_add_pid : DSM Unit := do
  let msg := dsm_msg.init DSM_MSG_ADD_PID
  let pid ← getpid
  let msg := { msg with proc_pid := pid }
  let s ← get_state
  send_msg s.g_sock_io msg

/-- Sends `DSM_MSG_HIT_BAR` to the arbiter. -/
def send_hit_bar : DSM Unit := do
  let msg := dsm_msg.init DSM_MSG_HIT_BAR
  let pid ← getpid
  let msg := { msg with proc_pid := pid }
  let s ← get_state
  send_msg s.g_sock_io msg

/-- Sends the payload for `DSM_MSG_POST_SEM` and `DSM_MSG_WAIT_SEM` to the arbiter. -/
def send_sem_msg (type : dsm_msg_t) (sem_name : List Nat) : DSM Unit := do
  let msg := dsm_msg.init type
  let pid ← getpid
  let msg := { msg with sem_pid := pid }
  let msg := { msg with sem_name := snprintf_s msg.sem_name DSM_MSG_STR_SIZE sem_name }
  let s ← get_state
  send_msg s.g_sock_io msg

/-- Sends the exit message to the arbiter. -/
def send_exit : DSM Unit := do
  let msg := dsm_msg.init DSM_MSG_EXIT
  let s ← get_state
  send_msg s.g_sock_io msg

/-- Receives `DSM_MSG_POST_SEM` from the arbiter; the name is unused. -/
def recv_post_sem (_sem_name : List Nat) : DSM Unit := do
  let s ← get_state
  let msg ← recv_msg s.g_sock_io
  let pid ← getpid
  ASSERT_COND (msg.type = DSM_MSG_POST_SEM && msg.sem_pid = pid)

/-- Receives `DSM_MSG_SET_GID` from the arbiter; returns the global identifier. -/
def recv_set_gid : DSM Int := do
  let s ← get_state
  let msg ← recv_msg s.g_sock_io
  let pid ← getpid
  ASSERT_COND (msg.type = DSM_MSG_SET_GID && msg.proc_pid = pid)
  pure msg.proc_gid

/-! ## Utility functions -/

/-- Launches the arbiter and its cleanup daemon. In the process where the first
`dsm_fork` returns 0 the function does not return: that process forks again and exits;
the process where the second `dsm_fork` returns 0 executes the arbiter. -/
def fork_arbiter (cfg : dsm_cfg) : DSM Unit := do
  let proc_buf := snprintf_u 6 cfg.nproc
  let size_buf := snprintf_u 11 cfg.map_size
  let pid ← dsm_fork 0
  if pid = 0 then
    let pid2 ← dsm_fork 1
    if pid2 = 0 then
      emit Effect.setsid
      emit (Effect.execlp proc_buf cfg.sid_name cfg.d_addr cfg.d_port size_buf)
      let env ← get_env
      if env.execlp_returns then halt dsm_halt.exec_failed
      else halt dsm_halt.image_replaced
    else
      halt dsm_halt.child_exit
  else
    emit (Effect.waitpid pid)

/-! ## Function definitions -/

/-- The loop of `dsm_init` (lines 201 to 205): sleep, connect, count the attempt, and
repeat `while (g_sock_io == -1 && attempts < DSM_MAX_SOCK_POLL)`. The first argument
bounds the iterations left; `dsm_init` passes `DSM_MAX_SOCK_POLL`, which the loop condition
never lets the loop exceed. -/
def connect_loop : Nat → Nat → DSM Unit
  | 0, _ => pure ()
  | fuel + 1, attempts => do
    emit (Effect.usleep DSM_SOCK_POLL_RATE)
    let fd ← dsm_getConnectedSocket attempts
    modify_state (fun s => { s with g_sock_io := fd })
    let attempts := attempts + 1
    if fd = -1 ∧ attempts < DSM_MAX_SOCK_POLL then connect_loop fuel attempts
    else pure ()

/-- Initializes the shared memory system. Returns a pointer to the shared map. -/
def dsm_init (cfg : dsm_cfg) : DSM Nat := do
  let s ← get_state
  ASSERT_STATE (s.g_sock_io = -1 || s.g_shared_map = NULL)
  fork_arbiter cfg
  connect_loop DSM_MAX_SOCK_POLL 0
  let s ← get_state
  if s.g_sock_io = -1 then halt dsm_halt.arbiter_unreachable
  else
    let (fd, first) ← dsm_getSharedFile
    ASSERT_COND (first = 0)
    let size ← dsm_getSharedFileSize fd
    modify_state (fun s => { s with g_map_size := size })
    let s ← get_state
    let map ← dsm_mapSharedFile fd s.g_map_size (PROT_READ ||| PROT_WRITE)
    modify_state (fun s => { s with g_shared_map := map })
    send_add_pid
    dsm_sync_init
    dsm_sigaction SIGSEGV sig_handler.dsm_sync_sigsegv
    dsm_sigaction SIGILL sig_handler.dsm_sync_sigill
    let s ← get_state
    dsm_mprotect s.g_shared_map s.g_map_size PROT_READ
    let gid ← recv_set_gid
    modify_state (fun s => { s with g_gid := gid })
    let s ← get_state
    pure s.g_shared_map

/-- Initializes the shared memory system with the default configuration. -/
def dsm_init2 (sid : List Nat) (nproc : Nat) (map_size : Nat) : DSM Nat :=
  dsm_init { nproc := nproc, sid_name := sid,
             d_addr := [49, 50, 55, 46, 48, 46, 48, 46, 49],
             d_port := [52, 50, 48, 48], map_size := map_size }

/-- Returns the global process identifier (GID) to the caller. -/
def dsm_get_gid : DSM Int := do
  let s ← get_state
  pure s.g_gid

/-- Blocks the process until all other processes are synchronized at the same point. -/
def dsm_barrier : DSM Unit := do
  send_hit_bar
  let pid ← getpid
  emit (Effect.kill pid SIGTSTP)
  let env ← get_env
  if env.kill ≠ 0 then halt dsm_halt.barrier_failed
  else pure ()

/-- Posts (ups) on the named semaphore. -/
def dsm_post_sem (sem_name : List Nat) : DSM Unit :=
  send_sem_msg DSM_MSG_POST_SEM sem_name

/-- Waits (downs) on the named semaphore. -/
def dsm_wait_sem (sem_name : List Nat) : DSM Unit := do
  send_sem_msg DSM_MSG_WAIT_SEM sem_name
  recv_post_sem sem_name

/-- Disconnects from the shared memory system. Unmaps the shared memory. -/
def dsm_exit : DSM Unit := do
  dsm_sigdefault SIGSEGV
  dsm_sigdefault SIGILL
  let s ← get_state
  ASSERT_STATE (s.g_sock_io ≠ -1 && s.g_shared_map ≠ NULL)
  dsm_barrier
  send_exit
  let s ← get_state
  emit (Effect.close s.g_sock_io)
  modify_state (fun s => { s with g_sock_io := -1 })
  let s ← get_state
  emit (Effect.munmap s.g_shared_map s.g_map_size)
  let env ← get_env
  if env.munmap = -1 then halt dsm_halt.unmap_failed
  else
    modify_state (fun s => { s with g_shared_map := NULL })

/-! ## Definitions used to state the results -/

/-- The trace of `k` rounds of the connection loop. -/
def poll_trace : Nat → List Effect
  | 0 => []
  | k + 1 => Effect.usleep DSM_SOCK_POLL_RATE :: Effect.dsm_getConnectedSocket :: poll_trace k

/-- The effects of `dsm_init` after a connection on socket `sock`, up to and including
the receive of the answer to the check-in. -/
def init_effects (env : Env) (sock : Int) : List Effect :=
  [ Effect.dsm_getSharedFile,
    Effect.dsm_getSharedFileSize env.shared_fd,
    Effect.dsm_mapSharedFile env.shared_fd env.dsm_getSharedFileSize (PROT_READ ||| PROT_WRITE),
    Effect.dsm_sendall sock { dsm_msg.init DSM_MSG_ADD_PID with proc_pid := env.getpid },
    Effect.dsm_sync_init,
    Effect.dsm_sigaction SIGSEGV sig_handler.dsm_sync_sigsegv,
    Effect.dsm_sigaction SIGILL sig_handler.dsm_sync_sigill,
    Effect.dsm_mprotect env.dsm_mapSharedFile env.dsm_getSharedFileSize PROT_READ,
    Effect.dsm_recvall sock ]

/-- The state `dsm_init` reaches once it has received the answer to its check-in, when
the connection took `k` attempts; `g_gid` is not yet assigned. -/
def init_state (env : Env) (s : State) (k : Nat) : State :=
  { g_shared_map := env.dsm_mapSharedFile,
    g_map_size := env.dsm_getSharedFileSize,
    g_gid := s.g_gid,
    g_sock_io := env.dsm_getConnectedSocket (k - 1),
    sigsegv := disposition.handler sig_handler.dsm_sync_sigsegv,
    sigill := disposition.handler sig_handler.dsm_sync_sigill,
    sigtstp := s.sigtstp,
    trace := s.trace ++ [Effect.dsm_fork, Effect.waitpid (env.dsm_fork 0)] ++ poll_trace k
      ++ init_effects env (env.dsm_getConnectedSocket (k - 1)) }

/-- The result of `dsm_init` when the connection took `k` attempts. -/
def init_result (env : Env) (s : State) (k : Nat) : Except dsm_halt Nat × State :=
  let polled : State :=
    { s with g_sock_io := env.dsm_getConnectedSocket (k - 1),
             trace := s.trace ++ [Effect.dsm_fork, Effect.waitpid (env.dsm_fork 0)] ++ poll_trace k }
  if env.dsm_getConnectedSocket (k - 1) = -1 then
    (Except.error dsm_halt.arbiter_unreachable, polled)
  else if env.shared_first ≠ 0 then
    (Except.error dsm_halt.cond_violation,
      { polled with trace := polled.trace ++ [Effect.dsm_getSharedFile] })
  else
    match env.dsm_recvall with
    | none => (Except.error dsm_halt.lost_connection, init_state env s k)
    | some f =>
      if f.type = DSM_MSG_SET_GID ∧ f.proc_pid = env.getpid then
        (Except.ok env.dsm_mapSharedFile, { init_state env s k with g_gid := f.proc_gid })
      else (Except.error dsm_halt.cond_violation, init_state env s k)

/-- The frame `send_sem_msg` sends. -/
def sem_frame (type : dsm_msg_t) (pid : Int) (sem_name : List Nat) : dsm_msg :=
  { type := type, proc_pid := 0, proc_gid := 0, sem_pid := pid,
    sem_name := (c_str sem_name).take (DSM_MSG_STR_SIZE - 1) }

/-- The state `dsm_wait_sem` reaches: one frame sent, one frame read. -/
def wait_state (sem_name : List Nat) (env : Env) (s : State) : State :=
  { s with trace := s.trace ++
      [Effect.dsm_sendall s.g_sock_io (sem_frame DSM_MSG_WAIT_SEM env.getpid sem_name),
       Effect.dsm_recvall s.g_sock_io] }

/-- The state `dsm_barrier` reaches: `DSM_MSG_HIT_BAR` sent, then the stop signal. -/
def barrier_state (env : Env) (s : State) : State :=
  { s with trace := s.trace ++
      [Effect.dsm_sendall s.g_sock_io { dsm_msg.init DSM_MSG_HIT_BAR with proc_pid := env.getpid },
       Effect.kill env.getpid SIGTSTP] }

/-- The state after the two `dsm_sigdefault` calls that open `dsm_exit`. -/
def exit_reset (s : State) : State :=
  { s with sigsegv := disposition.SIG_DFL, sigill := disposition.SIG_DFL,
           trace := s.trace ++ [Effect.dsm_sigdefault SIGSEGV, Effect.dsm_sigdefault SIGILL] }

/-- The effects of a `dsm_exit` that reaches `munmap`, for caller `pid`, socket `sock`
and a region at `map` of `size` bytes. -/
def exit_effects (pid sock : Int) (map : Nat) (size : Int) : List Effect :=
  [ Effect.dsm_sigdefault SIGSEGV,
    Effect.dsm_sigdefault SIGILL,
    Effect.dsm_sendall sock { dsm_msg.init DSM_MSG_HIT_BAR with proc_pid := pid },
    Effect.kill pid SIGTSTP,
    Effect.dsm_sendall sock (dsm_msg.init DSM_MSG_EXIT),
    Effect.close sock,
    Effect.munmap map size ]

/-- The state a `dsm_exit` that reaches `munmap` leaves, before `g_shared_map` is reset. -/
def exit_state (env : Env) (s : State) : State :=
  { s with g_sock_io := -1, sigsegv := disposition.SIG_DFL, sigill := disposition.SIG_DFL,
           trace := s.trace ++ exit_effects env.getpid s.g_sock_io s.g_shared_map s.g_map_size }

/-- The result of `dsm_exit`. -/
def exit_result (env : Env) (s : State) : Except dsm_halt Unit × State :=
  if s.g_sock_io ≠ -1 ∧ s.g_shared_map ≠ NULL then
    if env.kill ≠ 0 then (Except.error dsm_halt.barrier_failed, barrier_state env (exit_reset s))
    else if env.munmap = -1 then (Except.error dsm_halt.unmap_failed, exit_state env s)
    else (Except.ok (), { exit_state env s with g_shared_map := NULL })
  else (Except.error dsm_halt.state_violation, exit_reset s)

/-- A call of one of the six public operations. -/
inductive Call
  | init (cfg : dsm_cfg)
  | get_gid
  | barrier
  | post_sem (sem_name : List Nat)
  | wait_sem (sem_name : List Nat)
  | exit
  deriving DecidableEq, Repr

/-- Whether the call is a call of `dsm_init`. -/
def Call.is_init : Call → Bool
  | Call.init _ => true
  | _ => false

/-- The state a computation returns in; `none` when it stops the process. -/
def completes {α : Type} (r : Except dsm_halt α × State) : Option State :=
  match r with
  | (Except.ok _, s) => some s
  | (Except.error _, _) => none

/-- One call, with the answers of the world during it: the state it returns in. -/
def Call.step (c : Call) (env : Env) (s : State) : Option State :=
  match c with
  | Call.init cfg => completes (dsm_init cfg env s)
  | Call.get_gid => completes (dsm_get_gid env s)
  | Call.barrier => completes (dsm_barrier env s)
  | Call.post_sem sem_name => completes (dsm_post_sem sem_name env s)
  | Call.wait_sem sem_name => completes (dsm_wait_sem sem_name env s)
  | Call.exit => completes (dsm_exit env s)

/-- A finite sequence of calls in which each call completes: the state after the last. -/
def run_calls : List (Env × Call) → State → Option State
  | [], s => some s
  | (env, c) :: rest, s =>
    match c.step env s with
    | some s1 => run_calls rest s1
    | none => none

/-! ## Concrete inputs -/

/-- An arbiter that answers the first connection attempt and assigns gid 1 to pid 100. -/
def env_up : Env :=
  { getpid := 100, dsm_fork := fun _ => 7, execlp_returns := false,
    dsm_getConnectedSocket := fun _ => 5,
    shared_fd := 4, shared_first := 0, dsm_getSharedFileSize := 4096,
    dsm_mapSharedFile := 65536,
    dsm_recvall := some { type := DSM_MSG_SET_GID, proc_pid := 100, proc_gid := 1,
                          sem_pid := 0, sem_name := [] },
    kill := 0, munmap := 0 }

/-- No arbiter reachable: every connection attempt yields -1. -/
def env_down : Env :=
  { env_up with dsm_getConnectedSocket := fun _ => -1 }

/-- The arbiter wakes pid 100 on a semaphore. -/
def env_wake : Env :=
  { env_up with dsm_recvall := some { type := DSM_MSG_POST_SEM, proc_pid := 0, proc_gid := 0,
                                      sem_pid := 100, sem_name := [115, 101, 109] } }

/-- The configuration of `examples/pingpong_semaphore.c`. -/
def cfg_pingpong : dsm_cfg :=
  { nproc := 2, sid_name := [70, 111, 111], d_addr := [49, 50, 55, 46, 48, 46, 48, 46, 49],
    d_port := [52, 50, 48, 48], map_size := 4096 }

/-- A process that has made no call, with default dispositions. -/
def s_fresh : State :=
  initial_state disposition.SIG_DFL disposition.SIG_DFL disposition.SIG_DFL

/-- A process that has made no call of the library and has handlers of its own for
`SIGSEGV` and `SIGILL`. -/
def s_app : State :=
  initial_state (disposition.handler (sig_handler.app 1)) (disposition.handler (sig_handler.app 2))
    disposition.SIG_DFL

/-- An initialised runtime: socket 5, a region of 4096 bytes at 65536, gid 1. -/
def s_live : State :=
  { g_shared_map := 65536, g_map_size := 4096, g_gid := 1, g_sock_io := 5,
    sigsegv := disposition.handler sig_handler.dsm_sync_sigsegv,
    sigill := disposition.handler sig_handler.dsm_sync_sigill,
    sigtstp := disposition.SIG_DFL, trace := [] }

/-! ## Running the computations -/

theorem pure_run {α : Type} (a : α) (env : Env) (s : State) :
    (pure a : DSM α) env s = (Except.ok a, s) := rfl

theorem bind_run {α β : Type} (m : DSM α) (f : α → DSM β) (env : Env) (s : State) :
    (m >>= f) env s =
      match m env s with
      | (Except.ok a, s1) => f a env s1
      | (Except.error e, s1) => (Except.error e, s1) := rfl

theorem fork_arbiter_run (cfg : dsm_cfg) (env : Env) (s : State) (h : env.dsm_fork 0 ≠ 0) :
    fork_arbiter cfg env s =
      (Except.ok (), { s with trace := s.trace ++ [Effect.dsm_fork, Effect.waitpid (env.dsm_fork 0)] }) := by
  simp [fork_arbiter, bind_run, pure_run, dsm_fork, emit, get_env, h]

theorem connect_loop_succ (env : Env) (fuel a : Nat) (s : State) :
    connect_loop (fuel + 1) a env s =
      if env.dsm_getConnectedSocket a = -1 ∧ a + 1 < DSM_MAX_SOCK_POLL then
        connect_loop fuel (a + 1) env
          { s with g_sock_io := env.dsm_getConnectedSocket a,
                   trace := s.trace ++ [Effect.usleep DSM_SOCK_POLL_RATE, Effect.dsm_getConnectedSocket] }
      else
        (Except.ok (),
          { s with g_sock_io := env.dsm_getConnectedSocket a,
                   trace := s.trace ++ [Effect.usleep DSM_SOCK_POLL_RATE, Effect.dsm_getConnectedSocket] }) := by
  simp only [connect_loop, bind_run, pure_run, emit, dsm_getConnectedSocket, get_env, modify_state]
  split <;> simp [pure_run]

theorem connect_loop_run (env : Env) :
    ∀ (fuel a : Nat) (s : State), a + fuel = DSM_MAX_SOCK_POLL → 0 < fuel →
      ∃ k, 1 ≤ k ∧ k ≤ fuel ∧
        (∀ i, i + 1 < k → env.dsm_getConnectedSocket (a + i) = -1) ∧
        (k < fuel → env.dsm_getConnectedSocket (a + k - 1) ≠ -1) ∧
        connect_loop fuel a env s =
          (Except.ok (), { s with g_sock_io := env.dsm_getConnectedSocket (a + k - 1),
                                  trace := s.trace ++ poll_trace k }) := by
  intro fuel
  induction fuel with
  | zero => intro a s _ h; omega
  | succ n ih =>
    intro a s hsum _
    by_cases hc : env.dsm_getConnectedSocket a = -1 ∧ a + 1 < DSM_MAX_SOCK_POLL
    · have hn : 0 < n := by omega
      obtain ⟨k, hk1, hk2, hk3, hk4, hk5⟩ :=
        ih (a + 1) ({ s with g_sock_io := env.dsm_getConnectedSocket a,
                             trace := s.trace ++ [Effect.usleep DSM_SOCK_POLL_RATE, Effect.dsm_getConnectedSocket] }) (by omega) hn
      refine ⟨k + 1, by omega, by omega, ?_, ?_, ?_⟩
      · intro i hi
        cases i with
        | zero => simpa using hc.1
        | succ j =>
          have := hk3 j (by omega)
          rw [show a + (j + 1) = a + 1 + j by omega]
          exact this
      · intro hlt
        have := hk4 (by omega)
        rw [show a + (k + 1) - 1 = a + 1 + k - 1 by omega]
        exact this
      · rw [connect_loop_succ, if_pos hc, hk5]
        simp [poll_trace, show a + (k + 1) - 1 = a + 1 + k - 1 by omega]
    · refine ⟨1, le_refl 1, by omega, ?_, ?_, ?_⟩
      · intro i hi; omega
      · intro hlt
        have hfalse : a + 1 < DSM_MAX_SOCK_POLL := by omega
        simp only [Nat.add_sub_cancel]
        intro h1
        exact hc ⟨h1, hfalse⟩
      · rw [connect_loop_succ, if_neg hc]
        simp [poll_trace]

theorem dsm_init_run (cfg : dsm_cfg) (env : Env) (s : State)
    (hguard : s.g_sock_io = -1 ∨ s.g_shared_map = NULL) (hparent : env.dsm_fork 0 ≠ 0) :
    ∃ k, 1 ≤ k ∧ k ≤ DSM_MAX_SOCK_POLL ∧
      (∀ i, i + 1 < k → env.dsm_getConnectedSocket i = -1) ∧
      (k < DSM_MAX_SOCK_POLL → env.dsm_getConnectedSocket (k - 1) ≠ -1) ∧
      dsm_init cfg env s = init_result env s k := by
  obtain ⟨k, hk1, hk2, hk3, hk4, hk5⟩ :=
    connect_loop_run env DSM_MAX_SOCK_POLL 0
      { s with trace := s.trace ++ [Effect.dsm_fork, Effect.waitpid (env.dsm_fork 0)] }
      (by simp) (by decide)
  simp only [Nat.zero_add] at hk3 hk4 hk5
  refine ⟨k, hk1, hk2, hk3, hk4, ?_⟩
  have hg : (decide (s.g_sock_io = -1) || decide (s.g_shared_map = NULL)) = true := by
    simpa using hguard
  unfold dsm_init
  simp only [bind_run, get_state, ASSERT_STATE, hg, if_true, pure_run,
    fork_arbiter_run cfg env s hparent, hk5]
  unfold init_result
  by_cases hs : env.dsm_getConnectedSocket (k - 1) = -1
  · simp [hs, halt]
  · by_cases hf : env.shared_first = 0
    · cases hr : env.dsm_recvall with
      | none =>
        simp [hs, hf, hr, halt, bind_run, pure_run, dsm_getSharedFile, emit, get_env, ASSERT_COND,
          dsm_getSharedFileSize, modify_state, get_state, dsm_mapSharedFile, send_add_pid, getpid,
          send_msg, dsm_sync_init, dsm_sigaction, State.set_disposition, dsm_mprotect,
          recv_set_gid, recv_msg, init_state, init_effects]
      | some f =>
        by_cases hok : f.type = DSM_MSG_SET_GID ∧ f.proc_pid = env.getpid
        · simp [hs, hf, hr, hok, halt, bind_run, pure_run, dsm_getSharedFile, emit, get_env, ASSERT_COND,
            dsm_getSharedFileSize, modify_state, get_state, dsm_mapSharedFile, send_add_pid, getpid,
            send_msg, dsm_sync_init, dsm_sigaction, State.set_disposition, dsm_mprotect,
            recv_set_gid, recv_msg, init_state, init_effects]
        · simp [hs, hf, hr, hok, halt, bind_run, pure_run, dsm_getSharedFile, emit, get_env, ASSERT_COND,
            dsm_getSharedFileSize, modify_state, get_state, dsm_mapSharedFile, send_add_pid, getpid,
            send_msg, dsm_sync_init, dsm_sigaction, State.set_disposition, dsm_mprotect,
            recv_set_gid, recv_msg, init_state, init_effects]
    · simp [hs, hf, halt, bind_run, pure_run, dsm_getSharedFile, emit, get_env, ASSERT_COND]

theorem fork_arbiter_child (cfg : dsm_cfg) (env : Env) (s : State) (h : env.dsm_fork 0 = 0) :
    ∃ s1, fork_arbiter cfg env s = (Except.error dsm_halt.exec_failed, s1) ∨
      fork_arbiter cfg env s = (Except.error dsm_halt.image_replaced, s1) ∨
      fork_arbiter cfg env s = (Except.error dsm_halt.child_exit, s1) := by
  by_cases h2 : env.dsm_fork 1 = 0
  · by_cases h3 : env.execlp_returns = true
    · exact ⟨_, Or.inl (by
        simp [fork_arbiter, bind_run, pure_run, dsm_fork, emit, get_env, halt, h, h2, h3]; rfl)⟩
    · exact ⟨_, Or.inr (Or.inl (by
        simp [fork_arbiter, bind_run, pure_run, dsm_fork, emit, get_env, halt, h, h2, h3]; rfl))⟩
  · exact ⟨_, Or.inr (Or.inr (by
      simp [fork_arbiter, bind_run, pure_run, dsm_fork, emit, get_env, halt, h, h2]; rfl))⟩

theorem dsm_init_guard_fails (cfg : dsm_cfg) (env : Env) (s : State)
    (h : s.g_sock_io ≠ -1 ∧ s.g_shared_map ≠ NULL) :
    dsm_init cfg env s = (Except.error dsm_halt.state_violation, s) := by
  have hg : (decide (s.g_sock_io = -1) || decide (s.g_shared_map = NULL)) = false := by
    simp [h.1, h.2]
  unfold dsm_init
  simp only [bind_run, get_state, ASSERT_STATE, hg]
  rfl

theorem dsm_init_child (cfg : dsm_cfg) (env : Env) (s : State)
    (hguard : s.g_sock_io = -1 ∨ s.g_shared_map = NULL) (h : env.dsm_fork 0 = 0) :
    ∃ s1, dsm_init cfg env s = (Except.error dsm_halt.exec_failed, s1) ∨
      dsm_init cfg env s = (Except.error dsm_halt.image_replaced, s1) ∨
      dsm_init cfg env s = (Except.error dsm_halt.child_exit, s1) := by
  have hg : (decide (s.g_sock_io = -1) || decide (s.g_shared_map = NULL)) = true := by
    simpa using hguard
  obtain ⟨s1, h1 | h1 | h1⟩ := fork_arbiter_child cfg env s h
  · exact ⟨s1, Or.inl (by unfold dsm_init; simp only [bind_run, get_state, ASSERT_STATE, hg, if_true, pure_run, h1])⟩
  · exact ⟨s1, Or.inr (Or.inl (by unfold dsm_init; simp only [bind_run, get_state, ASSERT_STATE, hg, if_true, pure_run, h1]))⟩
  · exact ⟨s1, Or.inr (Or.inr (by unfold dsm_init; simp only [bind_run, get_state, ASSERT_STATE, hg, if_true, pure_run, h1]))⟩

theorem dsm_init_ok_guard (cfg : dsm_cfg) (env : Env) (s s1 : State) (p : Nat)
    (h : dsm_init cfg env s = (Except.ok p, s1)) :
    (s.g_sock_io = -1 ∨ s.g_shared_map = NULL) ∧ env.dsm_fork 0 ≠ 0 := by
  have hguard : s.g_sock_io = -1 ∨ s.g_shared_map = NULL := by
    by_contra hn
    push_neg at hn
    rw [dsm_init_guard_fails cfg env s hn] at h
    simp at h
  refine ⟨hguard, ?_⟩
  intro hz
  obtain ⟨s2, h1 | h1 | h1⟩ := dsm_init_child cfg env s hguard hz <;>
    · rw [h1] at h; simp at h

theorem dsm_get_gid_run (env : Env) (s : State) : dsm_get_gid env s = (Except.ok s.g_gid, s) := rfl

theorem snprintf_s_nil (size : Nat) (s : List Nat) :
    snprintf_s [] size s = (c_str s).take (size - 1) := by
  unfold snprintf_s
  split
  · next h => simp [h]
  · rfl

theorem send_sem_msg_run (type : dsm_msg_t) (sem_name : List Nat) (env : Env) (s : State) :
    send_sem_msg type sem_name env s =
      (Except.ok (), { s with trace := s.trace ++
        [Effect.dsm_sendall s.g_sock_io (sem_frame type env.getpid sem_name)] }) := by
  simp [send_sem_msg, bind_run, pure_run, getpid, get_env, get_state, send_msg, emit,
    dsm_msg.init, snprintf_s_nil, sem_frame]

theorem dsm_post_sem_run (sem_name : List Nat) (env : Env) (s : State) :
    dsm_post_sem sem_name env s =
      (Except.ok (), { s with trace := s.trace ++
        [Effect.dsm_sendall s.g_sock_io (sem_frame DSM_MSG_POST_SEM env.getpid sem_name)] }) :=
  send_sem_msg_run _ _ _ _

theorem dsm_wait_sem_run (sem_name : List Nat) (env : Env) (s : State) :
    dsm_wait_sem sem_name env s =
      match env.dsm_recvall with
      | none => (Except.error dsm_halt.lost_connection, wait_state sem_name env s)
      | some f =>
        if f.type = DSM_MSG_POST_SEM ∧ f.sem_pid = env.getpid then
          (Except.ok (), wait_state sem_name env s)
        else (Except.error dsm_halt.cond_violation, wait_state sem_name env s) := by
  cases hr : env.dsm_recvall with
  | none =>
    simp [dsm_wait_sem, bind_run, send_sem_msg_run, recv_post_sem, get_state, recv_msg, emit,
      get_env, hr, halt, wait_state]
  | some f =>
    by_cases hok : f.type = DSM_MSG_POST_SEM ∧ f.sem_pid = env.getpid
    · simp [dsm_wait_sem, bind_run, send_sem_msg_run, recv_post_sem, get_state, recv_msg, emit,
        get_env, hr, halt, wait_state, pure_run, getpid, ASSERT_COND, hok]
    · simp [dsm_wait_sem, bind_run, send_sem_msg_run, recv_post_sem, get_state, recv_msg, emit,
        get_env, hr, halt, wait_state, pure_run, getpid, ASSERT_COND, hok]

theorem dsm_barrier_run (env : Env) (s : State) :
    dsm_barrier env s =
      if env.kill ≠ 0 then (Except.error dsm_halt.barrier_failed, barrier_state env s)
      else (Except.ok (), barrier_state env s) := by
  by_cases hk : env.kill = 0
  · simp [dsm_barrier, bind_run, pure_run, send_hit_bar, getpid, get_env, get_state, send_msg,
      emit, halt, barrier_state, hk]
  · simp [dsm_barrier, bind_run, pure_run, send_hit_bar, getpid, get_env, get_state, send_msg,
      emit, halt, barrier_state, hk]

theorem dsm_exit_run (env : Env) (s : State) : dsm_exit env s = exit_result env s := by
  unfold exit_result
  by_cases hi : s.g_sock_io ≠ -1 ∧ s.g_shared_map ≠ NULL
  · by_cases hk : env.kill = 0
    · by_cases hm : env.munmap = -1
      · simp [dsm_exit, bind_run, pure_run, dsm_sigdefault, emit, modify_state,
          State.set_disposition, get_state, ASSERT_STATE, hi.1, hi.2, dsm_barrier_run, barrier_state, hk, hm,
          send_exit, send_msg, get_env, halt, exit_state, exit_effects, exit_reset]
      · simp [dsm_exit, bind_run, pure_run, dsm_sigdefault, emit, modify_state,
          State.set_disposition, get_state, ASSERT_STATE, hi.1, hi.2, dsm_barrier_run, barrier_state, hk, hm,
          send_exit, send_msg, get_env, halt, exit_state, exit_effects, exit_reset]
    · simp [dsm_exit, bind_run, pure_run, dsm_sigdefault, emit, modify_state,
        State.set_disposition, get_state, ASSERT_STATE, hi.1, hi.2, dsm_barrier_run, barrier_state, hk,
        halt, exit_reset]
  · have hi2 : s.g_sock_io ≠ -1 → s.g_shared_map = NULL := by
      intro h; by_contra h2; exact hi ⟨h, h2⟩
    simp [dsm_exit, bind_run, pure_run, dsm_sigdefault, emit, modify_state,
        State.set_disposition, get_state, ASSERT_STATE, hi, hi2, halt, exit_reset]

/-! ## The connection poll of `dsm_init` -/

theorem init_result_unreachable_iff (env : Env) (s : State) (k : Nat) :
    (init_result env s k).1 = Except.error dsm_halt.arbiter_unreachable ↔
      env.dsm_getConnectedSocket (k - 1) = -1 := by
  unfold init_result
  by_cases hs : env.dsm_getConnectedSocket (k - 1) = -1
  · simp [hs]
  · by_cases hf : env.shared_first = 0
    · cases hr : env.dsm_recvall with
      | none => simp [hs, hf]
      | some f =>
        by_cases hok : f.type = DSM_MSG_SET_GID ∧ f.proc_pid = env.getpid
        · simp [hs, hf, hok]
        · simp [hs, hf, hok]
    · simp [hs, hf]

theorem init_result_trace (env : Env) (s : State) (k : Nat) :
    ∃ rest, (init_result env s k).2.trace =
        s.trace ++ [Effect.dsm_fork, Effect.waitpid (env.dsm_fork 0)] ++ poll_trace k ++ rest ∧
      (∀ e ∈ rest, e ≠ Effect.dsm_getConnectedSocket ∧ ∀ usec, e ≠ Effect.usleep usec) ∧
      (env.dsm_getConnectedSocket (k - 1) = -1 → rest = []) := by
  unfold init_result
  by_cases hs : env.dsm_getConnectedSocket (k - 1) = -1
  · exact ⟨[], by simp [hs], by simp, fun _ => rfl⟩
  · by_cases hf : env.shared_first = 0
    · refine ⟨init_effects env (env.dsm_getConnectedSocket (k - 1)), ?_, ?_, fun h => absurd h hs⟩
      · cases hr : env.dsm_recvall with
        | none => simp [hs, hf, init_state]
        | some f =>
          by_cases hok : f.type = DSM_MSG_SET_GID ∧ f.proc_pid = env.getpid
          · simp [hs, hf, hok, init_state]
          · simp [hs, hf, hok, init_state]
      · intro e he
        simp only [init_effects, List.mem_cons, List.mem_singleton, List.not_mem_nil, or_false] at he
        rcases he with h | h | h | h | h | h | h | h | h <;> subst h <;> simp
    · exact ⟨[Effect.dsm_getSharedFile], by simp [hs, hf], by simp, fun h => absurd h hs⟩

/-- C1: when `dsm_init` passes its guard (in the calling process), it makes `k` connection
attempts with `1 ≤ k ≤ 15`, each preceded by one sleep of 250000 microseconds; every
attempt before the last yielded -1, and fewer than 15 attempts are made only when the last
one yielded a socket; nothing after the poll sleeps or connects. It stops with the
arbiter-unreachable error if and only if all 15 attempts yield -1, and then it has made
exactly 15 sleeps and attempts and no further effect (the shared file is not opened and
`ADD_PID` is not sent). -/
theorem dsm_init_connect_poll (cfg : dsm_cfg) (env : Env) (s : State)
    (hguard : s.g_sock_io = -1 ∨ s.g_shared_map = NULL) (hparent : env.dsm_fork 0 ≠ 0) :
    ∃ k rest, 1 ≤ k ∧ k ≤ 15 ∧
      (∀ i, i + 1 < k → env.dsm_getConnectedSocket i = -1) ∧
      (k < 15 → env.dsm_getConnectedSocket (k - 1) ≠ -1) ∧
      (dsm_init cfg env s).2.trace =
        s.trace ++ [Effect.dsm_fork, Effect.waitpid (env.dsm_fork 0)]
          ++ (List.replicate k [Effect.usleep 250000, Effect.dsm_getConnectedSocket]).flatten
          ++ rest ∧
      (∀ e ∈ rest, e ≠ Effect.dsm_getConnectedSocket ∧ ∀ usec, e ≠ Effect.usleep usec) ∧
      ((dsm_init cfg env s).1 = Except.error dsm_halt.arbiter_unreachable ↔
        ∀ i, i < 15 → env.dsm_getConnectedSocket i = -1) ∧
      ((dsm_init cfg env s).1 = Except.error dsm_halt.arbiter_unreachable →
        k = 15 ∧ rest = []) := by
  obtain ⟨k, hk1, hk2, hk3, hk4, hrun⟩ := dsm_init_run cfg env s hguard hparent
  obtain ⟨rest, ht, hrest, hnil⟩ := init_result_trace env s k
  have hmax : DSM_MAX_SOCK_POLL = 15 := rfl
  rw [hmax] at hk2 hk4
  have hpoll : ∀ n, poll_trace n =
      (List.replicate n [Effect.usleep 250000, Effect.dsm_getConnectedSocket]).flatten := by
    intro n
    induction n with
    | zero => rfl
    | succ m ih =>
      rw [poll_trace, ih, List.replicate_succ, List.flatten_cons]
      rfl
  have hfull : env.dsm_getConnectedSocket (k - 1) = -1 → k = 15 := by
    intro h
    by_contra hne
    exact hk4 (lt_of_le_of_ne hk2 hne) h
  refine ⟨k, rest, hk1, hk2, hk3, hk4, ?_, hrest, ?_, ?_⟩
  · rw [hrun, ht, hpoll]
  · rw [hrun, init_result_unreachable_iff]
    constructor
    · intro h i hi
      have hk := hfull h
      by_cases hlast : i + 1 < k
      · exact hk3 i hlast
      · have : i = k - 1 := by omega
        rw [this]; exact h
    · intro h
      exact h (k - 1) (by omega)
  · rw [hrun, init_result_unreachable_iff]
    intro h
    exact ⟨hfull h, hnil h⟩

/-- C1, at an input: with no arbiter reachable a fresh process sleeps 250000 microseconds
and attempts to connect 15 times, then stops with the arbiter-unreachable error without
any further effect. -/
theorem dsm_init_connect_poll_witness :
    (s_fresh.g_sock_io = -1 ∨ s_fresh.g_shared_map = NULL) ∧ env_down.dsm_fork 0 ≠ 0 ∧
    (dsm_init cfg_pingpong env_down s_fresh).1 = Except.error dsm_halt.arbiter_unreachable ∧
    (dsm_init cfg_pingpong env_down s_fresh).2.trace =
      [ Effect.dsm_fork, Effect.waitpid 7,
        Effect.usleep 250000, Effect.dsm_getConnectedSocket,
        Effect.usleep 250000, Effect.dsm_getConnectedSocket,
        Effect.usleep 250000, Effect.dsm_getConnectedSocket,
        Effect.usleep 250000, Effect.dsm_getConnectedSocket,
        Effect.usleep 250000, Effect.dsm_getConnectedSocket,
        Effect.usleep 250000, Effect.dsm_getConnectedSocket,
        Effect.usleep 250000, Effect.dsm_getConnectedSocket,
        Effect.usleep 250000, Effect.dsm_getConnectedSocket,
        Effect.usleep 250000, Effect.dsm_getConnectedSocket,
        Effect.usleep 250000, Effect.dsm_getConnectedSocket,
        Effect.usleep 250000, Effect.dsm_getConnectedSocket,
        Effect.usleep 250000, Effect.dsm_getConnectedSocket,
        Effect.usleep 250000, Effect.dsm_getConnectedSocket,
        Effect.usleep 250000, Effect.dsm_getConnectedSocket,
        Effect.usleep 250000, Effect.dsm_getConnectedSocket ] := by
  obtain ⟨_, _, _, _, _, _, _, _, hiff, _⟩ :=
    dsm_init_connect_poll cfg_pingpong env_down s_fresh (by decide) (by decide)
  have hu : (dsm_init cfg_pingpong env_down s_fresh).1 = Except.error dsm_halt.arbiter_unreachable :=
    hiff.2 (fun _ _ => rfl)
  refine ⟨by decide, by decide, hu, ?_⟩
  have hparent : env_down.dsm_fork 0 ≠ 0 := by decide
  simp only [dsm_init, bind_run, get_state, ASSERT_STATE, pure_run,
    fork_arbiter_run _ _ _ hparent, DSM_MAX_SOCK_POLL, connect_loop_succ]
  simp [s_fresh, initial_state, NULL, env_down, env_up, halt, DSM_SOCK_POLL_RATE, pure_run,
    connect_loop]

/-! ## The guards -/

/-- C2: in an initialised runtime (`g_sock_io` is not -1 and `g_shared_map` is not NULL)
a call of `dsm_init` stops with the state error and leaves the whole state as it was:
the trace gains no effect (no fork, no connection attempt, no frame) and the globals
`g_sock_io`, `g_shared_map`, `g_map_size` and `g_gid` keep their values. -/
theorem dsm_init_twice (cfg : dsm_cfg) (env : Env) (s : State)
    (h : s.g_sock_io ≠ -1 ∧ s.g_shared_map ≠ NULL) :
    dsm_init cfg env s = (Except.error dsm_halt.state_violation, s) :=
  dsm_init_guard_fails cfg env s h

/-- C2, at an input: a second `dsm_init` on the initialised runtime `s_live`. -/
theorem dsm_init_twice_witness :
    (s_live.g_sock_io ≠ -1 ∧ s_live.g_shared_map ≠ NULL) ∧
    dsm_init cfg_pingpong env_up s_live = (Except.error dsm_halt.state_violation, s_live) :=
  ⟨by decide, dsm_init_twice cfg_pingpong env_up s_live (by decide)⟩

/-- C3: on a process that never initialised the runtime and has handlers of its own for
`SIGSEGV` and `SIGILL`, `dsm_exit` stops with the state error only after two effects: both
dispositions have been reset to the default. -/
theorem dsm_exit_uninit_resets_handlers :
    dsm_exit env_up s_app =
      (Except.error dsm_halt.state_violation,
        { s_app with sigsegv := disposition.SIG_DFL, sigill := disposition.SIG_DFL,
                     trace := [Effect.dsm_sigdefault SIGSEGV, Effect.dsm_sigdefault SIGILL] }) ∧
    s_app.sigsegv = disposition.handler (sig_handler.app 1) ∧
    s_app.sigill = disposition.handler (sig_handler.app 2) ∧
    (s_app.g_sock_io = -1 ∨ s_app.g_shared_map = NULL) := by
  refine ⟨rfl, rfl, rfl, ?_⟩
  decide

/-! ## Semaphores -/

theorem wait_sem_result_ok_iff (sem_name : List Nat) (env : Env) (s : State) (f : dsm_msg)
    (hrecv : env.dsm_recvall = some f) :
    ((dsm_wait_sem sem_name env s).1 = Except.ok () ↔
        (f.type = DSM_MSG_POST_SEM ∧ f.sem_pid = env.getpid)) ∧
      (¬ (f.type = DSM_MSG_POST_SEM ∧ f.sem_pid = env.getpid) →
        (dsm_wait_sem sem_name env s).1 = Except.error dsm_halt.cond_violation) := by
  rw [dsm_wait_sem_run, hrecv]
  by_cases hok : f.type = DSM_MSG_POST_SEM ∧ f.sem_pid = env.getpid
  · simp [hok]
  · simp [hok]

theorem wait_sem_trace (sem_name : List Nat) (env : Env) (s : State) :
    (dsm_wait_sem sem_name env s).2 = wait_state sem_name env s := by
  rw [dsm_wait_sem_run]
  cases env.dsm_recvall with
  | none => rfl
  | some f =>
    by_cases hok : f.type = DSM_MSG_POST_SEM ∧ f.sem_pid = env.getpid
    · simp [hok]
    · simp [hok]

/-- C4, refuted as stated: for a name of 40 characters (40 times the letter a) the
`WAIT_SEM` frame that `dsm_wait_sem` sends does not carry the name; with the field width
32 it carries the first 31 characters, and the call returns normally. -/
theorem dsm_wait_sem_name_of_40_is_cut :
    dsm_wait_sem (List.replicate 40 97) env_wake s_live =
      (Except.ok (),
        { s_live with trace :=
          [ Effect.dsm_sendall 5
              { type := DSM_MSG_WAIT_SEM, proc_pid := 0, proc_gid := 0, sem_pid := 100,
                sem_name := List.replicate 31 97 },
            Effect.dsm_recvall 5 ] }) ∧
    List.replicate 31 97 ≠ List.replicate 40 97 := by
  refine ⟨rfl, ?_⟩
  decide

/-- C4, amended: for every semaphore name (a C string: no character is NUL) `dsm_wait_sem`
sends exactly one frame, of kind `WAIT_SEM`, with the caller's pid and the first
`DSM_MSG_STR_SIZE - 1` characters of the name (the whole name when it has no more than
that), then reads exactly one frame, and has no other effect. When the arbiter delivers
frame `f`, the call returns if and only if `f` has kind `POST_SEM` and `f.sem.pid` is the
caller's pid; otherwise it stops on the failed assertion. The name carried by `f` plays no
part. -/
theorem dsm_wait_sem_protocol (sem_name : List Nat) (env : Env) (s : State) (f : dsm_msg)
    (hname : ∀ c ∈ sem_name, c ≠ 0) (hrecv : env.dsm_recvall = some f) :
    (dsm_wait_sem sem_name env s).2 =
        { s with trace := s.trace ++
          [ Effect.dsm_sendall s.g_sock_io
              { type := DSM_MSG_WAIT_SEM, proc_pid := 0, proc_gid := 0, sem_pid := env.getpid,
                sem_name := sem_name.take (DSM_MSG_STR_SIZE - 1) },
            Effect.dsm_recvall s.g_sock_io ] } ∧
      (sem_name.length ≤ DSM_MSG_STR_SIZE - 1 →
        sem_name.take (DSM_MSG_STR_SIZE - 1) = sem_name) ∧
      (DSM_MSG_STR_SIZE - 1 < sem_name.length →
        (sem_name.take (DSM_MSG_STR_SIZE - 1)).length = DSM_MSG_STR_SIZE - 1) ∧
      ((dsm_wait_sem sem_name env s).1 = Except.ok () ↔
        (f.type = DSM_MSG_POST_SEM ∧ f.sem_pid = env.getpid)) ∧
      (¬ (f.type = DSM_MSG_POST_SEM ∧ f.sem_pid = env.getpid) →
        (dsm_wait_sem sem_name env s).1 = Except.error dsm_halt.cond_violation) ∧
      (∀ other : List Nat,
        (dsm_wait_sem sem_name { env with dsm_recvall := some { f with sem_name := other } } s).1 =
          (dsm_wait_sem sem_name env s).1) := by
  refine ⟨?_, ?_, ?_, (wait_sem_result_ok_iff sem_name env s f hrecv).1,
    (wait_sem_result_ok_iff sem_name env s f hrecv).2, ?_⟩
  · have hstr : c_str sem_name = sem_name := by
      unfold c_str
      rw [List.takeWhile_eq_self_iff]
      intro c hc
      simpa using hname c hc
    rw [wait_sem_trace]
    simp only [wait_state, sem_frame, hstr]
  · intro hlen
    exact List.take_of_length_le hlen
  · intro hlen
    rw [List.length_take]
    omega
  · intro other
    rw [dsm_wait_sem_run, dsm_wait_sem_run, hrecv]
    by_cases hok : f.type = DSM_MSG_POST_SEM ∧ f.sem_pid = env.getpid
    · simp [hok]
    · simp [hok]

/-- C4 amended, at an input: pid 100 waits on "sem"; the frame sent carries "sem", and the
call returns on the wake the arbiter delivers. -/
theorem dsm_wait_sem_protocol_witness :
    (∀ c ∈ [115, 101, 109], c ≠ 0) ∧
    env_wake.dsm_recvall = some { type := DSM_MSG_POST_SEM, proc_pid := 0, proc_gid := 0,
                                  sem_pid := 100, sem_name := [115, 101, 109] } ∧
    (dsm_wait_sem [115, 101, 109] env_wake s_live).1 = Except.ok () ∧
    (dsm_wait_sem [115, 101, 109] env_wake s_live).2.trace =
      [ Effect.dsm_sendall 5
          { type := DSM_MSG_WAIT_SEM, proc_pid := 0, proc_gid := 0, sem_pid := 100,
            sem_name := [115, 101, 109] },
        Effect.dsm_recvall 5 ] := by
  have h := dsm_wait_sem_protocol [115, 101, 109] env_wake s_live
    { type := DSM_MSG_POST_SEM, proc_pid := 0, proc_gid := 0, sem_pid := 100,
      sem_name := [115, 101, 109] } (by decide) rfl
  exact ⟨by decide, rfl, h.2.2.2.1.2 ⟨by decide, by decide⟩, rfl⟩

/-- C5, refuted as stated: with the empty name `dsm_post_sem` returns normally and has
sent one `POST_SEM` frame (with an empty name) to the arbiter. -/
theorem dsm_post_sem_empty_name_sends :
    dsm_post_sem [] env_up s_live =
      (Except.ok (),
        { s_live with trace :=
          [ Effect.dsm_sendall 5
              { type := DSM_MSG_POST_SEM, proc_pid := 0, proc_gid := 0, sem_pid := 100,
                sem_name := [] } ] }) := by
  rfl

/-- C5, amended: the empty name is treated like any other name. `dsm_post_sem` sends one
`POST_SEM` frame with the caller's pid and an empty name and returns; `dsm_wait_sem` sends
one `WAIT_SEM` frame with the caller's pid and an empty name, reads one frame, and returns
exactly when the frame read is a `POST_SEM` for the caller's pid. -/
theorem sem_empty_name_not_rejected (env : Env) (s : State) :
    dsm_post_sem [] env s =
        (Except.ok (),
          { s with trace := s.trace ++
            [ Effect.dsm_sendall s.g_sock_io
                { type := DSM_MSG_POST_SEM, proc_pid := 0, proc_gid := 0, sem_pid := env.getpid,
                  sem_name := [] } ] }) ∧
      (dsm_wait_sem [] env s).2 =
        { s with trace := s.trace ++
          [ Effect.dsm_sendall s.g_sock_io
              { type := DSM_MSG_WAIT_SEM, proc_pid := 0, proc_gid := 0, sem_pid := env.getpid,
                sem_name := [] },
            Effect.dsm_recvall s.g_sock_io ] } ∧
      ((dsm_wait_sem [] env s).1 = Except.ok () ↔
        ∃ f, env.dsm_recvall = some f ∧ f.type = DSM_MSG_POST_SEM ∧ f.sem_pid = env.getpid) := by
  refine ⟨?_, ?_, ?_⟩
  · rw [dsm_post_sem_run]; simp [sem_frame, c_str]
  · rw [wait_sem_trace]; simp [wait_state, sem_frame, c_str]
  · rw [dsm_wait_sem_run]
    cases hr : env.dsm_recvall with
    | none => simp
    | some f =>
      by_cases hok : f.type = DSM_MSG_POST_SEM ∧ f.sem_pid = env.getpid
      · simp [hok]
      · simp [hok]

/-- C6, refuted as stated: a name of 32 characters (32 times the letter a) is not carried
unchanged; with the field width 32 the frame carries its first 31 characters. -/
theorem dsm_post_sem_name_of_32_is_cut :
    (List.replicate 32 97).length = 32 ∧
    (dsm_post_sem (List.replicate 32 97) env_up s_live).2.trace =
      [ Effect.dsm_sendall 5
          { type := DSM_MSG_POST_SEM, proc_pid := 0, proc_gid := 0, sem_pid := 100,
            sem_name := List.replicate 31 97 } ] ∧
    List.replicate 31 97 ≠ List.replicate 32 97 := by
  refine ⟨rfl, rfl, ?_⟩
  decide

/-- C6, amended: the frame `dsm_post_sem` or `dsm_wait_sem` sends carries the name
unchanged when the name has at most `DSM_MSG_STR_SIZE - 1` characters, and exactly its
first `DSM_MSG_STR_SIZE - 1` characters when it is longer. The length of the name makes
neither call fail: `dsm_post_sem` returns, and what `dsm_wait_sem` does after the send is
the same for every name. -/
theorem sem_name_field (sem_name : List Nat) (env : Env) (s : State) :
    dsm_post_sem sem_name env s =
        (Except.ok (),
          { s with trace := s.trace ++
            [ Effect.dsm_sendall s.g_sock_io
                { type := DSM_MSG_POST_SEM, proc_pid := 0, proc_gid := 0, sem_pid := env.getpid,
                  sem_name := (c_str sem_name).take (DSM_MSG_STR_SIZE - 1) } ] }) ∧
      (dsm_wait_sem sem_name env s).2.trace = s.trace ++
          [ Effect.dsm_sendall s.g_sock_io
              { type := DSM_MSG_WAIT_SEM, proc_pid := 0, proc_gid := 0, sem_pid := env.getpid,
                sem_name := (c_str sem_name).take (DSM_MSG_STR_SIZE - 1) },
            Effect.dsm_recvall s.g_sock_io ] ∧
      ((c_str sem_name).length ≤ DSM_MSG_STR_SIZE - 1 →
        (c_str sem_name).take (DSM_MSG_STR_SIZE - 1) = c_str sem_name) ∧
      (DSM_MSG_STR_SIZE - 1 < (c_str sem_name).length →
        ((c_str sem_name).take (DSM_MSG_STR_SIZE - 1)).length = DSM_MSG_STR_SIZE - 1) ∧
      (∀ other : List Nat,
        (dsm_wait_sem sem_name env s).1 = (dsm_wait_sem other env s).1) := by
  refine ⟨?_, ?_, ?_, ?_, ?_⟩
  · rw [dsm_post_sem_run]; rfl
  · rw [wait_sem_trace]; rfl
  · intro h; exact List.take_of_length_le h
  · intro h
    rw [List.length_take]
    omega
  · intro other
    rw [dsm_wait_sem_run, dsm_wait_sem_run]
    cases env.dsm_recvall with
    | none => rfl
    | some f =>
      by_cases hok : f.type = DSM_MSG_POST_SEM ∧ f.sem_pid = env.getpid
      · simp [hok]
      · simp [hok]

/-! ## Completed runs of `dsm_init` -/

theorem init_result_ok (env : Env) (s s1 : State) (k p : Nat)
    (h : init_result env s k = (Except.ok p, s1)) :
    env.dsm_getConnectedSocket (k - 1) ≠ -1 ∧ env.shared_first = 0 ∧ p = env.dsm_mapSharedFile ∧
      ∃ f, env.dsm_recvall = some f ∧ f.type = DSM_MSG_SET_GID ∧ f.proc_pid = env.getpid ∧
        s1 = { init_state env s k with g_gid := f.proc_gid } := by
  unfold init_result at h
  by_cases hs : env.dsm_getConnectedSocket (k - 1) = -1
  · simp [hs] at h
  · by_cases hf : env.shared_first = 0
    · cases hr : env.dsm_recvall with
      | none => simp [hs, hf, hr] at h
      | some f =>
        by_cases hok : f.type = DSM_MSG_SET_GID ∧ f.proc_pid = env.getpid
        · simp [hs, hf, hr, hok] at h
          exact ⟨hs, hf, h.1.symm, f, rfl, hok.1, hok.2, h.2.symm⟩
        · simp [hs, hf, hr, hok] at h
    · simp [hs, hf] at h

theorem init_result_some (env : Env) (s : State) (k : Nat) (f : dsm_msg)
    (hs : env.dsm_getConnectedSocket (k - 1) ≠ -1) (hfirst : env.shared_first = 0)
    (hrecv : env.dsm_recvall = some f) :
    init_result env s k =
      if f.type = DSM_MSG_SET_GID ∧ f.proc_pid = env.getpid then
        (Except.ok env.dsm_mapSharedFile, { init_state env s k with g_gid := f.proc_gid })
      else (Except.error dsm_halt.cond_violation, init_state env s k) := by
  unfold init_result
  simp [hs, hfirst, hrecv]

theorem step_keeps_gid (c : Call) (env : Env) (s s1 : State) (hc : c.is_init = false)
    (h : c.step env s = some s1) : s1.g_gid = s.g_gid := by
  cases c with
  | init cfg => simp [Call.is_init] at hc
  | get_gid =>
    simp only [Call.step, dsm_get_gid_run, completes, Option.some.injEq] at h
    rw [← h]
  | barrier =>
    simp only [Call.step, dsm_barrier_run] at h
    split at h
    · simp [completes] at h
    · simp only [completes, Option.some.injEq] at h
      rw [← h]; rfl
  | post_sem n =>
    simp only [Call.step, dsm_post_sem_run, completes, Option.some.injEq] at h
    rw [← h]
  | wait_sem n =>
    have h2 := wait_sem_trace n env s
    simp only [Call.step] at h
    cases hr : dsm_wait_sem n env s with
    | mk r s2 =>
      rw [hr] at h h2
      cases r with
      | error e => simp [completes] at h
      | ok u =>
        simp only [completes, Option.some.injEq] at h
        rw [← h]
        simp only at h2
        rw [h2]; rfl
  | exit =>
    simp only [Call.step, dsm_exit_run, exit_result] at h
    split at h
    · split at h
      · simp [completes] at h
      · split at h
        · simp [completes] at h
        · simp only [completes, Option.some.injEq] at h
          rw [← h]; rfl
    · simp [completes] at h

theorem run_calls_keeps_gid :
    ∀ (calls : List (Env × Call)) (s s1 : State),
      (∀ ec ∈ calls, ec.2.is_init = false) → run_calls calls s = some s1 → s1.g_gid = s.g_gid := by
  intro calls
  induction calls with
  | nil =>
    intro s s1 _ h
    simp only [run_calls, Option.some.injEq] at h
    rw [h]
  | cons ec rest ih =>
    intro s s1 hno h
    obtain ⟨env, c⟩ := ec
    simp only [run_calls] at h
    cases hstep : c.step env s with
    | none => rw [hstep] at h; simp at h
    | some s2 =>
      rw [hstep] at h
      have h1 := ih s2 s1 (fun ec hec => hno ec (List.mem_cons_of_mem _ hec)) h
      have h2 := step_keeps_gid c env s s2 (hno (env, c) (List.mem_cons_self _ _)) hstep
      rw [h1, h2]

/-- C7: when `dsm_init` has connected and opened the shared file and the arbiter delivers
frame `f` as the answer to the check-in, `dsm_init` completes if and only if `f` has kind
`SET_GID` and `f.proc.pid` is the caller's pid, and otherwise stops on the failed
assertion. When it completes, `dsm_get_gid` returns `f.proc.gid` after every later
sequence of completed calls of the other operations (`g_gid` is written by `dsm_init`
only). From the initial state, before any `dsm_init`, `dsm_get_gid` returns -1. -/
theorem dsm_init_adopts_gid (cfg : dsm_cfg) (env : Env) (s : State) (f : dsm_msg)
    (hguard : s.g_sock_io = -1 ∨ s.g_shared_map = NULL) (hparent : env.dsm_fork 0 ≠ 0)
    (hconn : ∃ i, i < DSM_MAX_SOCK_POLL ∧ env.dsm_getConnectedSocket i ≠ -1)
    (hfirst : env.shared_first = 0) (hrecv : env.dsm_recvall = some f) :
    ((∃ p s1, dsm_init cfg env s = (Except.ok p, s1)) ↔
        (f.type = DSM_MSG_SET_GID ∧ f.proc_pid = env.getpid)) ∧
      (¬ (f.type = DSM_MSG_SET_GID ∧ f.proc_pid = env.getpid) →
        (dsm_init cfg env s).1 = Except.error dsm_halt.cond_violation) ∧
      (∀ p s1, dsm_init cfg env s = (Except.ok p, s1) →
        ∀ (calls : List (Env × Call)) (s2 : State), (∀ ec ∈ calls, ec.2.is_init = false) →
          run_calls calls s1 = some s2 →
          ∀ env2, dsm_get_gid env2 s2 = (Except.ok f.proc_gid, s2)) ∧
      (∀ (segv ill tstp : disposition) (calls : List (Env × Call)) (s2 : State),
        (∀ ec ∈ calls, ec.2.is_init = false) →
          run_calls calls (initial_state segv ill tstp) = some s2 →
          ∀ env2, dsm_get_gid env2 s2 = (Except.ok (-1), s2)) := by
  obtain ⟨k, hk1, hk2, hk3, hk4, hrun⟩ := dsm_init_run cfg env s hguard hparent
  have hs : env.dsm_getConnectedSocket (k - 1) ≠ -1 := by
    by_cases hlt : k < DSM_MAX_SOCK_POLL
    · exact hk4 hlt
    · obtain ⟨i, hi, hsock⟩ := hconn
      by_cases hlast : i + 1 < k
      · exact absurd (hk3 i hlast) hsock
      · have : i = k - 1 := by omega
        rw [← this]; exact hsock
  have hres := init_result_some env s k f hs hfirst hrecv
  refine ⟨?_, ?_, ?_, ?_⟩
  · rw [hrun, hres]
    by_cases hok : f.type = DSM_MSG_SET_GID ∧ f.proc_pid = env.getpid
    · simp [hok]
    · simp [hok]
  · intro hno
    rw [hrun, hres]
    simp [hno]
  · intro p s1 h calls s2 hcalls hrc env2
    rw [hrun] at h
    obtain ⟨_, _, _, f2, hf2, _, _, hs1⟩ := init_result_ok env s s1 k p h
    rw [hrecv] at hf2
    have hff : f = f2 := by simpa using hf2
    have hg := run_calls_keeps_gid calls s1 s2 hcalls hrc
    rw [dsm_get_gid_run, hg, hs1, hff]
  · intro segv ill tstp calls s2 hcalls hrc env2
    have hg := run_calls_keeps_gid calls _ s2 hcalls hrc
    rw [dsm_get_gid_run, hg]
    rfl

/-- C7, at an input: a fresh process checks in and is assigned gid 1. -/
theorem dsm_init_adopts_gid_witness :
    (s_fresh.g_sock_io = -1 ∨ s_fresh.g_shared_map = NULL) ∧ env_up.dsm_fork 0 ≠ 0 ∧
    (∃ i, i < DSM_MAX_SOCK_POLL ∧ env_up.dsm_getConnectedSocket i ≠ -1) ∧
    env_up.shared_first = 0 ∧
    env_up.dsm_recvall = some { type := DSM_MSG_SET_GID, proc_pid := 100, proc_gid := 1,
                                sem_pid := 0, sem_name := [] } ∧
    (∃ p s1, dsm_init cfg_pingpong env_up s_fresh = (Except.ok p, s1)) :=
  ⟨by decide, by decide, ⟨0, by decide, by decide⟩, rfl, rfl,
    ((dsm_init_adopts_gid cfg_pingpong env_up s_fresh _ (by decide) (by decide)
      ⟨0, by decide, by decide⟩ rfl rfl).1).2 ⟨by decide, by decide⟩⟩

/-- C8, refuted as stated: in the completed run of `dsm_init` on a fresh process the
`ADD_PID` frame is sent right after the mapping, before either handler is installed and
before the region is reprotected to `PROT_READ`. -/
theorem dsm_init_sends_add_pid_early :
    (dsm_init cfg_pingpong env_up s_fresh).1 = Except.ok 65536 ∧
    (dsm_init cfg_pingpong env_up s_fresh).2.trace =
      [ Effect.dsm_fork, Effect.waitpid 7,
        Effect.usleep 250000, Effect.dsm_getConnectedSocket,
        Effect.dsm_getSharedFile, Effect.dsm_getSharedFileSize 4,
        Effect.dsm_mapSharedFile 4 4096 3,
        Effect.dsm_sendall 5
          { type := DSM_MSG_ADD_PID, proc_pid := 100, proc_gid := 0, sem_pid := 0, sem_name := [] },
        Effect.dsm_sync_init,
        Effect.dsm_sigaction SIGSEGV sig_handler.dsm_sync_sigsegv,
        Effect.dsm_sigaction SIGILL sig_handler.dsm_sync_sigill,
        Effect.dsm_mprotect 65536 4096 1,
        Effect.dsm_recvall 5 ] ∧
    List.indexOf
        (Effect.dsm_sendall 5
          { type := DSM_MSG_ADD_PID, proc_pid := 100, proc_gid := 0, sem_pid := 0, sem_name := [] })
        (dsm_init cfg_pingpong env_up s_fresh).2.trace
      < List.indexOf (Effect.dsm_sigaction SIGSEGV sig_handler.dsm_sync_sigsegv)
        (dsm_init cfg_pingpong env_up s_fresh).2.trace ∧
    List.indexOf
        (Effect.dsm_sendall 5
          { type := DSM_MSG_ADD_PID, proc_pid := 100, proc_gid := 0, sem_pid := 0, sem_name := [] })
        (dsm_init cfg_pingpong env_up s_fresh).2.trace
      < List.indexOf (Effect.dsm_mprotect 65536 4096 1)
        (dsm_init cfg_pingpong env_up s_fresh).2.trace := by
  have ht : (dsm_init cfg_pingpong env_up s_fresh).2.trace =
      [ Effect.dsm_fork, Effect.waitpid 7,
        Effect.usleep 250000, Effect.dsm_getConnectedSocket,
        Effect.dsm_getSharedFile, Effect.dsm_getSharedFileSize 4,
        Effect.dsm_mapSharedFile 4 4096 3,
        Effect.dsm_sendall 5
          { type := DSM_MSG_ADD_PID, proc_pid := 100, proc_gid := 0, sem_pid := 0, sem_name := [] },
        Effect.dsm_sync_init,
        Effect.dsm_sigaction SIGSEGV sig_handler.dsm_sync_sigsegv,
        Effect.dsm_sigaction SIGILL sig_handler.dsm_sync_sigill,
        Effect.dsm_mprotect 65536 4096 1,
        Effect.dsm_recvall 5 ] := rfl
  refine ⟨rfl, ht, ?_, ?_⟩
  · rw [ht]; decide
  · rw [ht]; decide

/-- C8, amended: in every run of `dsm_init` that completes, the effects after the
connection poll are, in this order: the shared file is opened, sized and mapped
`PROT_READ | PROT_WRITE`; the `ADD_PID` frame is sent; the decoder is initialised and the
handlers for `SIGSEGV` and `SIGILL` are installed; the region is reprotected to
`PROT_READ` (the next effect on the region after its mapping); and last the receive of
`SET_GID`. On return both handlers are installed. -/
theorem dsm_init_effect_order (cfg : dsm_cfg) (env : Env) (s s1 : State) (p : Nat)
    (hok : dsm_init cfg env s = (Except.ok p, s1)) :
    ∃ k, 1 ≤ k ∧ k ≤ DSM_MAX_SOCK_POLL ∧
      s1.trace =
        s.trace ++ [Effect.dsm_fork, Effect.waitpid (env.dsm_fork 0)] ++ poll_trace k ++
          [ Effect.dsm_getSharedFile,
            Effect.dsm_getSharedFileSize env.shared_fd,
            Effect.dsm_mapSharedFile env.shared_fd s1.g_map_size (PROT_READ ||| PROT_WRITE),
            Effect.dsm_sendall s1.g_sock_io
              { type := DSM_MSG_ADD_PID, proc_pid := env.getpid, proc_gid := 0, sem_pid := 0,
                sem_name := [] },
            Effect.dsm_sync_init,
            Effect.dsm_sigaction SIGSEGV sig_handler.dsm_sync_sigsegv,
            Effect.dsm_sigaction SIGILL sig_handler.dsm_sync_sigill,
            Effect.dsm_mprotect s1.g_shared_map s1.g_map_size PROT_READ,
            Effect.dsm_recvall s1.g_sock_io ] ∧
      s1.sigsegv = disposition.handler sig_handler.dsm_sync_sigsegv ∧
      s1.sigill = disposition.handler sig_handler.dsm_sync_sigill ∧
      p = s1.g_shared_map := by
  obtain ⟨hguard, hparent⟩ := dsm_init_ok_guard cfg env s s1 p hok
  obtain ⟨k, hk1, hk2, _, _, hrun⟩ := dsm_init_run cfg env s hguard hparent
  rw [hrun] at hok
  obtain ⟨_, _, hp, f, _, _, _, hs1⟩ := init_result_ok env s s1 k p hok
  refine ⟨k, hk1, hk2, ?_, ?_, ?_, ?_⟩
  · rw [hs1]; rfl
  · rw [hs1]; rfl
  · rw [hs1]; rfl
  · rw [hs1, hp]; rfl

/-- C8 amended, at an input: the completed run of a fresh process. -/
theorem dsm_init_effect_order_witness :
    dsm_init cfg_pingpong env_up s_fresh =
      (Except.ok 65536, (dsm_init cfg_pingpong env_up s_fresh).2) ∧
    ∃ k, 1 ≤ k ∧ k ≤ DSM_MAX_SOCK_POLL ∧
      (dsm_init cfg_pingpong env_up s_fresh).2.trace =
        s_fresh.trace ++ [Effect.dsm_fork, Effect.waitpid (env_up.dsm_fork 0)] ++ poll_trace k ++
          [ Effect.dsm_getSharedFile,
            Effect.dsm_getSharedFileSize env_up.shared_fd,
            Effect.dsm_mapSharedFile env_up.shared_fd
              (dsm_init cfg_pingpong env_up s_fresh).2.g_map_size (PROT_READ ||| PROT_WRITE),
            Effect.dsm_sendall (dsm_init cfg_pingpong env_up s_fresh).2.g_sock_io
              { type := DSM_MSG_ADD_PID, proc_pid := env_up.getpid, proc_gid := 0, sem_pid := 0,
                sem_name := [] },
            Effect.dsm_sync_init,
            Effect.dsm_sigaction SIGSEGV sig_handler.dsm_sync_sigsegv,
            Effect.dsm_sigaction SIGILL sig_handler.dsm_sync_sigill,
            Effect.dsm_mprotect (dsm_init cfg_pingpong env_up s_fresh).2.g_shared_map
              (dsm_init cfg_pingpong env_up s_fresh).2.g_map_size PROT_READ,
            Effect.dsm_recvall (dsm_init cfg_pingpong env_up s_fresh).2.g_sock_io ] ∧
      (dsm_init cfg_pingpong env_up s_fresh).2.sigsegv
        = disposition.handler sig_handler.dsm_sync_sigsegv ∧
      (dsm_init cfg_pingpong env_up s_fresh).2.sigill
        = disposition.handler sig_handler.dsm_sync_sigill ∧
      65536 = (dsm_init cfg_pingpong env_up s_fresh).2.g_shared_map :=
  ⟨rfl, dsm_init_effect_order cfg_pingpong env_up s_fresh _ 65536 rfl⟩

/-! ## `dsm_exit` -/

/-- C9: in an initialised runtime `dsm_exit` completes exactly when the stop signal of the
barrier is delivered (`kill` returns 0) and `munmap` does not return -1. A call that
completes has exactly these effects, in this order: default disposition restored for
`SIGSEGV` and for `SIGILL`; one `HIT_BAR` frame with the caller's pid; the stop signal to
the caller itself; one `EXIT` frame; close of the socket; unmap of `g_map_size` bytes at
`g_shared_map`. On return `g_sock_io` is -1 and `g_shared_map` is NULL. -/
theorem dsm_exit_sequence (env : Env) (s : State)
    (hinit : s.g_sock_io ≠ -1 ∧ s.g_shared_map ≠ NULL) :
    ((dsm_exit env s).1 = Except.ok () ↔ (env.kill = 0 ∧ env.munmap ≠ -1)) ∧
      (∀ s1, dsm_exit env s = (Except.ok (), s1) →
        s1.trace = s.trace ++
          [ Effect.dsm_sigdefault SIGSEGV,
            Effect.dsm_sigdefault SIGILL,
            Effect.dsm_sendall s.g_sock_io
              { type := DSM_MSG_HIT_BAR, proc_pid := env.getpid, proc_gid := 0, sem_pid := 0,
                sem_name := [] },
            Effect.kill env.getpid SIGTSTP,
            Effect.dsm_sendall s.g_sock_io
              { type := DSM_MSG_EXIT, proc_pid := 0, proc_gid := 0, sem_pid := 0, sem_name := [] },
            Effect.close s.g_sock_io,
            Effect.munmap s.g_shared_map s.g_map_size ] ∧
        s1.g_sock_io = -1 ∧ s1.g_shared_map = NULL ∧
        s1.sigsegv = disposition.SIG_DFL ∧ s1.sigill = disposition.SIG_DFL ∧
        s1.g_gid = s.g_gid ∧ s1.g_map_size = s.g_map_size ∧ s1.sigtstp = s.sigtstp) := by
  rw [dsm_exit_run]
  unfold exit_result
  rw [if_pos hinit]
  by_cases hk : env.kill = 0
  · by_cases hm : env.munmap = -1
    · simp [hk, hm]
    · simp only [hk, hm, ne_eq, not_true_eq_false, if_false, not_false_eq_true, and_self, true_and]
      intro s1 h
      simp only [Prod.mk.injEq, true_and] at h
      rw [← h]
      simp [exit_state, exit_effects, dsm_msg.init]
  · simp [hk]

/-- C9, at an input: `dsm_exit` on the initialised runtime `s_live`. -/
theorem dsm_exit_sequence_witness :
    (s_live.g_sock_io ≠ -1 ∧ s_live.g_shared_map ≠ NULL) ∧
    (dsm_exit env_up s_live).1 = Except.ok () ∧
    (dsm_exit env_up s_live).2.trace =
      [ Effect.dsm_sigdefault SIGSEGV,
        Effect.dsm_sigdefault SIGILL,
        Effect.dsm_sendall 5
          { type := DSM_MSG_HIT_BAR, proc_pid := 100, proc_gid := 0, sem_pid := 0, sem_name := [] },
        Effect.kill 100 SIGTSTP,
        Effect.dsm_sendall 5
          { type := DSM_MSG_EXIT, proc_pid := 0, proc_gid := 0, sem_pid := 0, sem_name := [] },
        Effect.close 5,
        Effect.munmap 65536 4096 ] :=
  ⟨by decide, ((dsm_exit_sequence env_up s_live (by decide)).1).2 ⟨by decide, by decide⟩, rfl⟩

/-! ## The two globals that mark an initialised runtime -/

theorem init_result_not_state (env : Env) (s : State) (k : Nat) :
    (init_result env s k).1 ≠ Except.error dsm_halt.state_violation := by
  unfold init_result
  by_cases hs : env.dsm_getConnectedSocket (k - 1) = -1
  · simp [hs]
  · by_cases hf : env.shared_first = 0
    · cases hr : env.dsm_recvall with
      | none => simp [hs, hf]
      | some f =>
        by_cases hok : f.type = DSM_MSG_SET_GID ∧ f.proc_pid = env.getpid
        · simp [hs, hf, hok]
        · simp [hs, hf, hok]
    · simp [hs, hf]

theorem dsm_init_guard_passes (cfg : dsm_cfg) (env : Env) (s : State)
    (hguard : s.g_sock_io = -1 ∨ s.g_shared_map = NULL) :
    (dsm_init cfg env s).1 ≠ Except.error dsm_halt.state_violation := by
  by_cases hp : env.dsm_fork 0 = 0
  · obtain ⟨s1, h | h | h⟩ := dsm_init_child cfg env s hguard hp <;>
      · rw [h]; simp
  · obtain ⟨k, _, _, _, _, hrun⟩ := dsm_init_run cfg env s hguard hp
    rw [hrun]
    exact init_result_not_state env s k

theorem dsm_exit_ok (env : Env) (s s1 : State) (h : dsm_exit env s = (Except.ok (), s1)) :
    s1.g_sock_io = -1 ∧ s1.g_shared_map = NULL := by
  rw [dsm_exit_run] at h
  unfold exit_result at h
  split at h
  · split at h
    · simp at h
    · split at h
      · simp at h
      · simp only [Prod.mk.injEq, true_and] at h
        rw [← h]
        exact ⟨rfl, rfl⟩
  · simp at h

theorem completes_some {α : Type} (r : Except dsm_halt α × State) (s1 : State)
    (h : completes r = some s1) : ∃ a, r = (Except.ok a, s1) := by
  obtain ⟨x, s2⟩ := r
  cases x with
  | error e => simp [completes] at h
  | ok a =>
    simp only [completes, Option.some.injEq] at h
    exact ⟨a, by rw [h]⟩

theorem step_keeps_pairing (c : Call) (env : Env) (s s1 : State)
    (hmap : env.dsm_mapSharedFile ≠ NULL)
    (hinv : s.g_sock_io = -1 ↔ s.g_shared_map = NULL)
    (h : c.step env s = some s1) : (s1.g_sock_io = -1 ↔ s1.g_shared_map = NULL) := by
  cases c with
  | init cfg =>
    obtain ⟨p, hp⟩ := completes_some _ _ h
    obtain ⟨hguard, hparent⟩ := dsm_init_ok_guard cfg env s s1 p hp
    obtain ⟨k, _, _, _, _, hrun⟩ := dsm_init_run cfg env s hguard hparent
    rw [hrun] at hp
    obtain ⟨hs, _, _, f, _, _, _, hs1⟩ := init_result_ok env s s1 k p hp
    have h1 : s1.g_sock_io = env.dsm_getConnectedSocket (k - 1) := by rw [hs1]; rfl
    have h2 : s1.g_shared_map = env.dsm_mapSharedFile := by rw [hs1]; rfl
    rw [h1, h2]
    exact ⟨fun h => absurd h hs, fun h => absurd h hmap⟩
  | get_gid =>
    simp only [Call.step, dsm_get_gid_run, completes, Option.some.injEq] at h
    rw [← h]; exact hinv
  | barrier =>
    simp only [Call.step, dsm_barrier_run] at h
    split at h
    · simp [completes] at h
    · simp only [completes, Option.some.injEq] at h
      rw [← h]; exact hinv
  | post_sem n =>
    simp only [Call.step, dsm_post_sem_run, completes, Option.some.injEq] at h
    rw [← h]; exact hinv
  | wait_sem n =>
    obtain ⟨u, hu⟩ := completes_some _ _ h
    have h2 := wait_sem_trace n env s
    rw [hu] at h2
    simp only at h2
    rw [h2]; exact hinv
  | exit =>
    obtain ⟨u, hu⟩ := completes_some _ _ h
    obtain ⟨h1, h2⟩ := dsm_exit_ok env s s1 hu
    exact ⟨fun _ => h2, fun _ => h1⟩

theorem run_calls_keeps_pairing :
    ∀ (calls : List (Env × Call)) (s s1 : State),
      (∀ ec ∈ calls, ec.1.dsm_mapSharedFile ≠ NULL) →
      (s.g_sock_io = -1 ↔ s.g_shared_map = NULL) →
      run_calls calls s = some s1 → (s1.g_sock_io = -1 ↔ s1.g_shared_map = NULL) := by
  intro calls
  induction calls with
  | nil =>
    intro s s1 _ hinv h
    simp only [run_calls, Option.some.injEq] at h
    rw [← h]; exact hinv
  | cons ec rest ih =>
    intro s s1 hmap hinv h
    obtain ⟨env, c⟩ := ec
    simp only [run_calls] at h
    cases hstep : c.step env s with
    | none => rw [hstep] at h; simp at h
    | some s2 =>
      rw [hstep] at h
      exact ih s2 s1 (fun ec hec => hmap ec (List.mem_cons_of_mem _ hec))
        (step_keeps_pairing c env s s2 (hmap (env, c) (List.mem_cons_self _ _)) hinv hstep) h

/-- C10: from initial globals (`g_sock_io = -1`, `g_shared_map = NULL`), after every finite
sequence of completed calls of the six public operations (every prefix of such a sequence
is one too), `g_sock_io = -1` holds if and only if `g_shared_map = NULL` holds, given that
`dsm_mapSharedFile` never returns NULL. Hence the disjunction in the guard of `dsm_init`
holds exactly when both globals are unset, `dsm_init` stops with the state error exactly
in the states where both are set, and a `dsm_init` issued after a completed `dsm_exit`
passes the guard. -/
theorem globals_set_together (calls : List (Env × Call)) (s0 s : State)
    (h0 : s0.g_sock_io = -1 ∧ s0.g_shared_map = NULL)
    (hmap : ∀ ec ∈ calls, ec.1.dsm_mapSharedFile ≠ NULL)
    (hrun : run_calls calls s0 = some s) :
    (s.g_sock_io = -1 ↔ s.g_shared_map = NULL) ∧
      ((s.g_sock_io = -1 ∨ s.g_shared_map = NULL) ↔ (s.g_sock_io = -1 ∧ s.g_shared_map = NULL)) ∧
      (∀ cfg env, (dsm_init cfg env s).1 = Except.error dsm_halt.state_violation ↔
        (s.g_sock_io ≠ -1 ∧ s.g_shared_map ≠ NULL)) ∧
      (∀ env s1, dsm_exit env s = (Except.ok (), s1) →
        (s1.g_sock_io = -1 ∨ s1.g_shared_map = NULL) ∧
        ∀ cfg env2, (dsm_init cfg env2 s1).1 ≠ Except.error dsm_halt.state_violation) := by
  have hinv := run_calls_keeps_pairing calls s0 s hmap ⟨fun _ => h0.2, fun _ => h0.1⟩ hrun
  refine ⟨hinv, ?_, ?_, ?_⟩
  · constructor
    · rintro (h | h)
      · exact ⟨h, hinv.1 h⟩
      · exact ⟨hinv.2 h, h⟩
    · intro h; exact Or.inl h.1
  · intro cfg env
    constructor
    · intro h
      by_contra hn
      have hguard : s.g_sock_io = -1 ∨ s.g_shared_map = NULL := by
        by_cases h1 : s.g_sock_io = -1
        · exact Or.inl h1
        · by_cases h2 : s.g_shared_map = NULL
          · exact Or.inr h2
          · exact absurd ⟨h1, h2⟩ hn
      exact dsm_init_guard_passes cfg env s hguard h
    · intro h
      rw [dsm_init_guard_fails cfg env s h]
  · intro env s1 h
    obtain ⟨h1, _⟩ := dsm_exit_ok env s s1 h
    exact ⟨Or.inl h1, fun cfg env2 => dsm_init_guard_passes cfg env2 s1 (Or.inl h1)⟩

/-- C10, at an input: a fresh process runs `dsm_init`, `dsm_post_sem`, `dsm_exit`. -/
theorem globals_set_together_witness :
    (s_fresh.g_sock_io = -1 ∧ s_fresh.g_shared_map = NULL) ∧
    (∀ ec ∈ [(env_up, Call.init cfg_pingpong), (env_up, Call.post_sem [115]), (env_up, Call.exit)],
      ec.1.dsm_mapSharedFile ≠ NULL) ∧
    (∃ s, run_calls
        [(env_up, Call.init cfg_pingpong), (env_up, Call.post_sem [115]), (env_up, Call.exit)]
        s_fresh = some s ∧
      (s.g_sock_io = -1 ↔ s.g_shared_map = NULL)) :=
  ⟨by decide, by
      intro ec hec
      simp only [List.mem_cons, List.mem_singleton, List.not_mem_nil, or_false] at hec
      rcases hec with h | h | h <;> subst h <;> decide,
    ⟨_, rfl,
      (globals_set_together
        [(env_up, Call.init cfg_pingpong), (env_up, Call.post_sem [115]), (env_up, Call.exit)]
        s_fresh _ (by decide)
        (by
          intro ec hec
          simp only [List.mem_cons, List.mem_singleton, List.not_mem_nil, or_false] at hec
          rcases hec with h | h | h <;> subst h <;> decide)
        rfl).1⟩⟩

end Dsm
